import Mathlib

/-!
Verification of the opfwd command-forwarding daemon.

Shallow embedding of the Go sources `main.go` (flag-based snapshot) and the
config-file snapshot.  Strings are modelled as `List Char`; the functions
mirror the Go `strings` package operations the program uses
(`TrimSpace`, `HasPrefix`, `Fields`), and each server function is translated
into a pure Lean function over an oracle recording the outcomes of the
external calls (filesystem, the external `op` tool, pipes).
-/

/-- Byte/rune strings of the program, modelled as lists of characters. -/
abbrev Str := List Char

/-- Coerce a Lean string literal to the `List Char` model. -/
def str (s : String) : Str := s.data

/-- The whitespace predicate of Go's `unicode.IsSpace` (the set of
White_Space code points), used by `strings.TrimSpace` and `strings.Fields`. -/
def goIsSpace (c : Char) : Bool :=
  c = ' ' || c = '\t' || c = '\n' || c = '\x0b' || c = '\x0c' || c = '\r' ||
  c = '\x85' || c = '\xa0' || c = ' ' ||
  (' ' ≤ c && c ≤ ' ') ||
  c = ' ' || c = ' ' || c = ' ' || c = ' ' || c = '　'

/-- Go `strings.TrimSpace`: drop leading and trailing whitespace. -/
def goTrimSpace (s : Str) : Str :=
  ((s.dropWhile goIsSpace).reverse.dropWhile goIsSpace).reverse

/-- Helper for `goFields`: walks the string accumulating the current word
(reversed); a whitespace character ends the current word, empty words are
dropped. -/
def fieldsAux : Str → Str → List Str
  | [], acc => if acc.isEmpty then [] else [acc.reverse]
  | c :: cs, acc =>
    if goIsSpace c then
      if acc.isEmpty then fieldsAux cs [] else acc.reverse :: fieldsAux cs []
    else
      fieldsAux cs (c :: acc)

/-- Go `strings.Fields`: split around runs of whitespace, no empty tokens. -/
def goFields (s : Str) : List Str := fieldsAux s []

/-- Server configuration (`Config` in the source): socket path, 1Password
account shorthand, exact-match whitelist, and the whitelist of allowed
command beginnings. -/
structure Config where
  SocketPath : Str
  Account : Str
  AllowedCommands : List Str
  AllowedPrefixes : List Str

/-- `validateCommand` from the source: trim the input, return true on an
exact match against `AllowedCommands`, else on a `strings.HasPrefix` match
against an entry of `AllowedPrefixes`, else false. -/
def validateCommand (cfg : Config) (input : Str) : Bool :=
  let cmdWithArgs := goTrimSpace input
  (cfg.AllowedCommands.any fun allowed => cmdWithArgs == allowed) ||
    (cfg.AllowedPrefixes.any fun q => q.isPrefixOf cmdWithArgs)

/-- The spec's allowedness predicate (§3 Policy, written from the spec's
words): the trimmed command is in the exact set, or some entry of the
allowed-beginnings set is a literal byte-wise front of the trimmed command. -/
def specAllowed (cfg : Config) (c : Str) : Prop :=
  goTrimSpace c ∈ cfg.AllowedCommands ∨
    ∃ q ∈ cfg.AllowedPrefixes, q <+: goTrimSpace c

/-- C1: `validateCommand` returns true iff the trimmed input is an exact
whitelist element or some whitelist entry is a literal front of the trimmed
input; with both lists empty it returns false on every input. -/
theorem validateCommand_iff_specAllowed :
    (∀ (cfg : Config) (s : Str), validateCommand cfg s = true ↔ specAllowed cfg s) ∧
    (∀ (cfg : Config), cfg.AllowedCommands = [] → cfg.AllowedPrefixes = [] →
      ∀ s : Str, validateCommand cfg s = false) := by
  constructor
  · intro cfg s
    simp only [validateCommand, specAllowed, Bool.or_eq_true, List.any_eq_true]
    constructor
    · rintro (⟨a, ha, hb⟩ | ⟨q, hq, hp⟩)
      · exact Or.inl (by rw [← eq_of_beq hb] at ha; exact ha)
      · exact Or.inr ⟨q, hq, (List.isPrefixOf_iff_prefix).mp hp⟩
    · rintro (h | ⟨q, hq, hp⟩)
      · exact Or.inl ⟨goTrimSpace s, h, beq_self_eq_true _⟩
      · exact Or.inr ⟨q, hq, (List.isPrefixOf_iff_prefix).mpr hp⟩
  · intro cfg hc hp s
    simp [validateCommand, hc, hp]

/-- Closed witness for C1 at the test policy and the spec §8 inputs. -/
theorem validateCommand_iff_specAllowed_witness :
    (validateCommand
        ⟨str "/tmp/opfwd.sock", str "test-account",
          [str "read op://Employee/CONFIG/operator"], [str "item create"]⟩
        (str "read op://Employee/CONFIG/operator") = true ↔
      specAllowed
        ⟨str "/tmp/opfwd.sock", str "test-account",
          [str "read op://Employee/CONFIG/operator"], [str "item create"]⟩
        (str "read op://Employee/CONFIG/operator")) ∧
    (validateCommand ⟨str "/tmp/opfwd.sock", str "test-account", [], []⟩
        (str "read op://Personal/SSH/passphrase") = false) := by
  constructor
  · exact validateCommand_iff_specAllowed.1 _ _
  · exact validateCommand_iff_specAllowed.2 _ rfl rfl _

/-- Dropping while `p` holds twice is the same as dropping once: the head of
the result (if any) already fails `p`. -/
theorem dropWhile_dropWhile (p : Char → Bool) (l : Str) :
    (l.dropWhile p).dropWhile p = l.dropWhile p := by
  induction l with
  | nil => rfl
  | cons c cs ih =>
    cases h : p c <;> simp [List.dropWhile_cons, h, ih]

/-- The head of a nonempty `dropWhile p` result fails `p`. -/
theorem dropWhile_head_false (p : Char → Bool) (l : Str) (c : Char) (cs : Str)
    (h : l.dropWhile p = c :: cs) : p c = false := by
  induction l with
  | nil => simp at h
  | cons a as ih =>
    rw [List.dropWhile_cons] at h
    by_cases ha : p a = true
    · simp [ha] at h
      exact ih h
    · simp [ha] at h
      rw [← h.1]
      exact Bool.not_eq_true _ |>.mp ha

/-- Go's `TrimSpace` is idempotent. -/
theorem goTrimSpace_idem (s : Str) : goTrimSpace (goTrimSpace s) = goTrimSpace s := by
  unfold goTrimSpace
  set p := goIsSpace with hp
  set u := s.dropWhile p with hu
  set v := (u.reverse.dropWhile p) with hv
  -- Step 1: the fully trimmed string has no leading whitespace.
  have hfront : v.reverse.dropWhile p = v.reverse := by
    have hsuff : v <:+ u.reverse := hv ▸ List.dropWhile_suffix p
    have hpref : v.reverse <+: u := by
      have := List.reverse_prefix.mpr hsuff
      rwa [List.reverse_reverse] at this
    cases hvr : v.reverse with
    | nil => rfl
    | cons c cs =>
      obtain ⟨t, ht⟩ := hpref
      rw [hvr] at ht
      have hc : p c = false := by
        apply dropWhile_head_false p s c (cs ++ t)
        rw [← hu, ← ht, List.cons_append]
      simp [List.dropWhile_cons, hc]
  -- Step 2: after rewriting, only trailing-side idempotence remains.
  rw [hfront, List.reverse_reverse, hv, dropWhile_dropWhile]

/-- C8: `validateCommand` is invariant under trimming its input — the outcome
on `s` equals the outcome on `goTrimSpace s` for every configuration — while
a change to internal whitespace can flip an exact match (shown at the policy
that allows exactly "a b": input "a b" matches, "a  b" does not). -/
theorem validateCommand_trim_invariant :
    (∀ (cfg : Config) (s : Str),
        validateCommand cfg s = validateCommand cfg (goTrimSpace s)) ∧
    (validateCommand ⟨[], [], [str "a b"], []⟩ (str "a b") = true ∧
      validateCommand ⟨[], [], [str "a b"], []⟩ (str "a  b") = false) := by
  refine ⟨fun cfg s => ?_, by decide, by decide⟩
  simp only [validateCommand, goTrimSpace_idem]

/-- C10: an empty-string entry in the allowed-beginnings list makes
`validateCommand` accept every input, the empty line included. -/
theorem validateCommand_empty_entry_allows_all (cfg : Config)
    (h : ([] : Str) ∈ cfg.AllowedPrefixes) (s : Str) :
    validateCommand cfg s = true := by
  simp only [validateCommand, Bool.or_eq_true, List.any_eq_true]
  exact Or.inr ⟨[], h, by simp [List.isPrefixOf]⟩

/-- Closed witness for C10: with allowed beginnings `[""]`, both the empty
line and an arbitrary command are accepted. -/
theorem validateCommand_empty_entry_allows_all_witness :
    validateCommand ⟨[], [], [], [[]]⟩ (str "") = true ∧
    validateCommand ⟨[], [], [], [[]]⟩ (str "anything at all") = true :=
  ⟨validateCommand_empty_entry_allows_all _ (by simp) _,
   validateCommand_empty_entry_allows_all _ (by simp) _⟩

/-- Outcomes of the external `op` tool calls made by `ensureLoggedIn`:
the result of `checkCmd.Run()` (`none` = exit status zero), and the
combined output together with the error value of
`signinCmd.CombinedOutput()`. -/
structure OpOracle where
  checkErr : Option Str
  signinOutput : Str
  signinErr : Option Str

/-- Result of `ensureLoggedIn`: the returned error (`none` = success), the
log lines written, and the argument vectors of the external-tool
invocations it performed, in order. -/
structure AuthResult where
  err : Option Str
  logLines : List Str
  invocations : List (List Str)

/-- `ensureLoggedIn` from the source: run `op --account <acct> account get`;
on exit zero return nil.  Otherwise run `op signin --account <acct>`
capturing combined output; on success return nil, on failure log the
captured output and return the error `failed to sign in to 1Password: <err>`
wrapping only the error value. -/
def ensureLoggedIn (cfg : Config) (o : OpOracle) : AuthResult :=
  let checkArgs := [str "--account", cfg.Account, str "account", str "get"]
  match o.checkErr with
  | none =>
    { err := none
      logLines := [str "1Password account is already authenticated"]
      invocations := [checkArgs] }
  | some _ =>
    let signinArgs := [str "signin", str "--account", cfg.Account]
    match o.signinErr with
    | none =>
      { err := none
        logLines := [str "1Password account is not signed in, attempting to sign in",
                     str "Successfully signed in to 1Password"]
        invocations := [checkArgs, signinArgs] }
    | some e =>
      { err := some (str "failed to sign in to 1Password: " ++ e)
        logLines := [str "1Password account is not signed in, attempting to sign in",
                     str "Sign in attempt failed, output: " ++ o.signinOutput]
        invocations := [checkArgs, signinArgs] }

/-- C5 counterexample: when the status check and the sign-in both fail, the
error `ensureLoggedIn` returns wraps only the sign-in error value
("exit status 1"); the captured combined output ("bad credentials") is not
contained in it, contradicting the claim that the returned error includes
the captured sign-in output. -/
theorem ensureLoggedIn_output_not_in_error :
    (ensureLoggedIn ⟨[], str "acct", [], []⟩
        ⟨some (str "exit status 1"), str "bad credentials",
          some (str "exit status 1")⟩).err =
      some (str "failed to sign in to 1Password: exit status 1") ∧
    ¬ (str "bad credentials" <:+:
        str "failed to sign in to 1Password: exit status 1") := by
  constructor
  · rfl
  · decide

/-- C5 (amended): `ensureLoggedIn` succeeds iff the status check exits zero
or the subsequent sign-in succeeds; when both fail it returns the error
`failed to sign in to 1Password: <sign-in error value>` and writes the
captured combined sign-in output to the server log only. -/
theorem ensureLoggedIn_success_iff :
    (∀ (cfg : Config) (o : OpOracle),
        (ensureLoggedIn cfg o).err = none ↔
          (o.checkErr = none ∨ o.signinErr = none)) ∧
    (∀ (cfg : Config) (o : OpOracle) (ce e : Str),
        o.checkErr = some ce → o.signinErr = some e →
        (ensureLoggedIn cfg o).err =
            some (str "failed to sign in to 1Password: " ++ e) ∧
          (str "Sign in attempt failed, output: " ++ o.signinOutput) ∈
            (ensureLoggedIn cfg o).logLines) := by
  constructor
  · intro cfg o
    cases hc : o.checkErr <;> cases hs : o.signinErr <;>
      simp [ensureLoggedIn, hc, hs]
  · intro cfg o ce e hc hs
    simp [ensureLoggedIn, hc, hs]

/-- Closed witness for C5 (amended) at a concrete oracle where the check
fails and the sign-in fails. -/
theorem ensureLoggedIn_success_iff_witness :
    ((ensureLoggedIn ⟨[], str "acct", [], []⟩
        ⟨some (str "x"), str "out", some (str "boom")⟩).err = none ↔
      ((some (str "x") : Option Str) = none ∨
        (some (str "boom") : Option Str) = none)) ∧
    (ensureLoggedIn ⟨[], str "acct", [], []⟩
        ⟨some (str "x"), str "out", some (str "boom")⟩).err =
      some (str "failed to sign in to 1Password: " ++ str "boom") ∧
    (str "Sign in attempt failed, output: " ++ str "out") ∈
      (ensureLoggedIn ⟨[], str "acct", [], []⟩
        ⟨some (str "x"), str "out", some (str "boom")⟩).logLines := by
  refine ⟨ensureLoggedIn_success_iff.1 _ _, ?_⟩
  exact ensureLoggedIn_success_iff.2 ⟨[], str "acct", [], []⟩
    ⟨some (str "x"), str "out", some (str "boom")⟩ (str "x") (str "boom") rfl rfl

/-- The newline byte appended by the `fmt.Sprintf("...%s\n", ...)` writes. -/
def nl : Char := '\n'

/-- Observable steps of one connection: the authentication check and the
spawning of the external-tool subprocess. -/
inductive ConnEv
  | authCheck
  | spawn
deriving DecidableEq

/-- Outcomes of the fallible steps of `executeCommand` other than the
whitelist check: the `ensureLoggedIn` oracle, and the error values (if any)
of `StdoutPipe`, `StderrPipe` and `Start`. -/
structure ExecOracle where
  op : OpOracle
  stdoutPipeErr : Option Str
  stderrPipeErr : Option Str
  startErr : Option Str

/-- Result of `executeCommand`: the byte strings written to the connection,
the argument vector of the spawned subprocess (if one was started), and the
ordered observable events. -/
structure ExecResult where
  written : List Str
  spawned : Option (List Str)
  events : List ConnEv

/-- `executeCommand` from the source: first call `ensureLoggedIn`; on error
write `Error: Could not sign in to 1Password: <err>` and return.  Then build
`args = ["--account", account] ++ strings.Fields(input)`, create the two
pipes, and start `op` with `args`; each failure writes `Error: <err>` and
returns without a subprocess. -/
def executeCommand (cfg : Config) (o : ExecOracle) (input : Str) : ExecResult :=
  match (ensureLoggedIn cfg o.op).err with
  | some e =>
    { written := [str "Error: Could not sign in to 1Password: " ++ e ++ [nl]]
      spawned := none, events := [ConnEv.authCheck] }
  | none =>
    let args := [str "--account", cfg.Account] ++ goFields input
    match o.stdoutPipeErr with
    | some e =>
      { written := [str "Error: " ++ e ++ [nl]], spawned := none
        events := [ConnEv.authCheck] }
    | none =>
      match o.stderrPipeErr with
      | some e =>
        { written := [str "Error: " ++ e ++ [nl]], spawned := none
          events := [ConnEv.authCheck] }
      | none =>
        match o.startErr with
        | some e =>
          { written := [str "Error: " ++ e ++ [nl]], spawned := none
            events := [ConnEv.authCheck] }
        | none =>
          { written := [], spawned := some args
            events := [ConnEv.authCheck, ConnEv.spawn] }

/-- Per-connection oracle: the line delivered by `scanner.Scan`/`Text`
(`none` = EOF or read error before a line), and the `executeCommand`
oracle. -/
structure ConnOracle where
  line : Option Str
  exec : ExecOracle

/-- Result of `handleConnection`: writes, spawned argv, events, and whether
the connection was closed on exit. -/
structure ConnResult where
  written : List Str
  spawned : Option (List Str)
  events : List ConnEv
  closed : Bool

/-- `handleConnection` from the source: read one line (returning silently on
failure), trim it, reject with `Error: Command not allowed: <input>` when
`validateCommand` fails, otherwise delegate to `executeCommand`; the
connection is closed on every exit path (`defer conn.Close()`). -/
def handleConnection (cfg : Config) (o : ConnOracle) : ConnResult :=
  match o.line with
  | none => { written := [], spawned := none, events := [], closed := true }
  | some raw =>
    let input := goTrimSpace raw
    if validateCommand cfg input then
      let r := executeCommand cfg o.exec input
      { written := r.written, spawned := r.spawned, events := r.events
        closed := true }
    else
      { written := [str "Error: Command not allowed: " ++ input ++ [nl]]
        spawned := none, events := [], closed := true }

/-- The accept loop: each accepted connection is handled independently by
`handleConnection`; no state is threaded from one connection to the next. -/
def serverRun (cfg : Config) (conns : List ConnOracle) : List ConnResult :=
  conns.map (handleConnection cfg)

/-- Shared concrete test policy (the policy of the repository's tests). -/
def testConfig : Config :=
  ⟨str "/tmp/opfwd.sock", str "test-account",
    [str "read op://Employee/CONFIG/operator"], [str "item create"]⟩

/-- Shared concrete all-successful `executeCommand` oracle. -/
def okExec : ExecOracle := ⟨⟨none, [], none⟩, none, none, none⟩

/-- C3: when the trimmed line fails the whitelist, the server writes exactly
the single line `Error: Command not allowed: <trimmed input>\n`, closes the
connection, and never spawns the subprocess. -/
theorem handleConnection_rejected (cfg : Config) (o : ConnOracle) (raw : Str)
    (hline : o.line = some raw)
    (hval : validateCommand cfg (goTrimSpace raw) = false) :
    (handleConnection cfg o).written =
        [str "Error: Command not allowed: " ++ goTrimSpace raw ++ [nl]] ∧
      (handleConnection cfg o).spawned = none ∧
      ConnEv.spawn ∉ (handleConnection cfg o).events ∧
      (handleConnection cfg o).closed = true := by
  simp [handleConnection, hline, hval]

/-- Closed witness for C3 at the test policy and the spec §8 rejected
input. -/
theorem handleConnection_rejected_witness :
    validateCommand testConfig
        (goTrimSpace (str "read op://Personal/SSH/passphrase")) = false ∧
      (handleConnection testConfig
          ⟨some (str "read op://Personal/SSH/passphrase"), okExec⟩).written =
        [str "Error: Command not allowed: " ++
          goTrimSpace (str "read op://Personal/SSH/passphrase") ++ [nl]] ∧
      (handleConnection testConfig
          ⟨some (str "read op://Personal/SSH/passphrase"), okExec⟩).spawned =
        none := by
  have hv : validateCommand testConfig
      (goTrimSpace (str "read op://Personal/SSH/passphrase")) = false := by
    decide
  have h := handleConnection_rejected testConfig
    ⟨some (str "read op://Personal/SSH/passphrase"), okExec⟩
    (str "read op://Personal/SSH/passphrase") rfl hv
  exact ⟨hv, h.1, h.2.1⟩

/-- C2: when the line passes the whitelist and every later step succeeds,
the subprocess is spawned with argv exactly
`["--account", account] ++ Fields(trimmed line)`; when the whitelist check
fails, no argv is ever built and nothing is spawned. -/
theorem handleConnection_spawn_argv :
    (∀ (cfg : Config) (o : ConnOracle) (raw : Str), o.line = some raw →
      validateCommand cfg (goTrimSpace raw) = true →
      (ensureLoggedIn cfg o.exec.op).err = none →
      o.exec.stdoutPipeErr = none → o.exec.stderrPipeErr = none →
      o.exec.startErr = none →
      (handleConnection cfg o).spawned =
        some ([str "--account", cfg.Account] ++ goFields (goTrimSpace raw))) ∧
    (∀ (cfg : Config) (o : ConnOracle) (raw : Str), o.line = some raw →
      validateCommand cfg (goTrimSpace raw) = false →
      (handleConnection cfg o).spawned = none) := by
  constructor
  · intro cfg o raw hline hval hauth hso hse hst
    simp [handleConnection, hline, hval, executeCommand, hauth, hso, hse, hst]
  · intro cfg o raw hline hval
    simp [handleConnection, hline, hval]

/-- Closed witness for C2 at the spec §8 allowed input: the spawned argv is
exactly `["--account", "test-account", "read",
"op://Employee/CONFIG/operator"]`. -/
theorem handleConnection_spawn_argv_witness :
    (handleConnection testConfig
        ⟨some (str "read op://Employee/CONFIG/operator"), okExec⟩).spawned =
      some [str "--account", str "test-account", str "read",
        str "op://Employee/CONFIG/operator"] := by
  have h := handleConnection_spawn_argv.1 testConfig
    ⟨some (str "read op://Employee/CONFIG/operator"), okExec⟩
    (str "read op://Employee/CONFIG/operator") rfl (by decide) rfl rfl rfl rfl
  rw [h]
  decide

/-- In `executeCommand` the authentication check is always the first
observable event, and when it fails nothing is spawned. -/
theorem executeCommand_auth_first (cfg : Config) (o : ExecOracle) (input : Str) :
    (executeCommand cfg o input).events.head? = some ConnEv.authCheck ∧
      ((ensureLoggedIn cfg o.op).err ≠ none →
        ConnEv.spawn ∉ (executeCommand cfg o input).events) := by
  cases ha : (ensureLoggedIn cfg o.op).err with
  | some e => simp [executeCommand, ha]
  | none =>
    cases hso : o.stdoutPipeErr with
    | some e => simp [executeCommand, ha, hso]
    | none =>
      cases hse : o.stderrPipeErr with
      | some e => simp [executeCommand, ha, hso, hse]
      | none =>
        cases hst : o.startErr with
        | some e => simp [executeCommand, ha, hso, hse, hst]
        | none => simp [executeCommand, ha, hso, hse, hst]

/-- C9: for every connection in a run whose line passes the whitelist, the
result is a function of that connection's own oracle alone (no state is
carried across connections), the authentication check is its first
observable event — in particular it precedes any spawn — and when the check
fails the subprocess is never spawned for that command. -/
theorem serverRun_auth_per_command (cfg : Config) (conns : List ConnOracle)
    (i : Nat) (o : ConnOracle) (ho : conns[i]? = some o) (raw : Str)
    (hline : o.line = some raw)
    (hval : validateCommand cfg (goTrimSpace raw) = true) :
    (serverRun cfg conns)[i]? = some (handleConnection cfg o) ∧
      (handleConnection cfg o).events.head? = some ConnEv.authCheck ∧
      ((ensureLoggedIn cfg o.exec.op).err ≠ none →
        ConnEv.spawn ∉ (handleConnection cfg o).events) := by
  refine ⟨?_, ?_, ?_⟩
  · simp [serverRun, List.getElem?_map, ho]
  · simp only [handleConnection, hline, hval, if_true]
    exact (executeCommand_auth_first cfg o.exec (goTrimSpace raw)).1
  · intro hfail
    simp only [handleConnection, hline, hval, if_true]
    exact (executeCommand_auth_first cfg o.exec (goTrimSpace raw)).2 hfail

/-- Closed witness for C9: two identical allowed commands in one run; the
second connection's authentication check is re-run and is its first event. -/
theorem serverRun_auth_per_command_witness :
    (serverRun testConfig
        [⟨some (str "read op://Employee/CONFIG/operator"), okExec⟩,
         ⟨some (str "read op://Employee/CONFIG/operator"), okExec⟩])[1]? =
      some (handleConnection testConfig
        ⟨some (str "read op://Employee/CONFIG/operator"), okExec⟩) ∧
    (handleConnection testConfig
        ⟨some (str "read op://Employee/CONFIG/operator"), okExec⟩).events.head? =
      some ConnEv.authCheck := by
  have h := serverRun_auth_per_command testConfig
    [⟨some (str "read op://Employee/CONFIG/operator"), okExec⟩,
     ⟨some (str "read op://Employee/CONFIG/operator"), okExec⟩] 1
    ⟨some (str "read op://Employee/CONFIG/operator"), okExec⟩ rfl
    (str "read op://Employee/CONFIG/operator") rfl (by decide)
  exact ⟨h.1, h.2.1⟩

/-- Events of the relay after a successful `Start`: the two `go` statements
launching the stream copiers, the completion of each `io.Copy`, the return
of `opCmd.Wait()`, the return of `wg.Wait()` (config-file snapshot only),
and the relay's return to its caller. -/
inductive RelayEv
  | spawnOut
  | spawnErr
  | outDone
  | errDone
  | waitDone
  | wgDone
  | ret
deriving DecidableEq

/-- The events of the flag-based snapshot's relay (`main.go`): no `wg.Wait`
exists there. -/
def relayEventsMain : List RelayEv :=
  [RelayEv.spawnOut, RelayEv.spawnErr, RelayEv.outDone, RelayEv.errDone,
   RelayEv.waitDone, RelayEv.ret]

/-- Happens-before edges of `main.go`'s relay: program order of the main
goroutine (`go` stdout copier, `go` stderr copier, `opCmd.Wait()`, return)
plus the edge from each `go` statement to the copy it launches.  There is no
edge from a copy's completion to the return: the copier goroutines are never
joined. -/
def relayEdgesMain : List (RelayEv × RelayEv) :=
  [(RelayEv.spawnOut, RelayEv.spawnErr), (RelayEv.spawnErr, RelayEv.waitDone),
   (RelayEv.waitDone, RelayEv.ret), (RelayEv.spawnOut, RelayEv.outDone),
   (RelayEv.spawnErr, RelayEv.errDone)]

/-- The events of the config-file snapshot's relay, which adds
`wg.Wait()` between `opCmd.Wait()` and the return. -/
def relayEventsWg : List RelayEv :=
  [RelayEv.spawnOut, RelayEv.spawnErr, RelayEv.outDone, RelayEv.errDone,
   RelayEv.waitDone, RelayEv.wgDone, RelayEv.ret]

/-- Happens-before edges of the config-file snapshot's relay: `main.go`'s
program order with `wg.Wait()` inserted before the return, plus the join
edges from each copier's `wg.Done()` to `wg.Wait()`. -/
def relayEdgesWg : List (RelayEv × RelayEv) :=
  [(RelayEv.spawnOut, RelayEv.spawnErr), (RelayEv.spawnErr, RelayEv.waitDone),
   (RelayEv.waitDone, RelayEv.wgDone), (RelayEv.wgDone, RelayEv.ret),
   (RelayEv.spawnOut, RelayEv.outDone), (RelayEv.spawnErr, RelayEv.errDone),
   (RelayEv.outDone, RelayEv.wgDone), (RelayEv.errDone, RelayEv.wgDone)]

/-- A schedule respects a happens-before edge list when the source of every
edge occurs strictly before its target. -/
def respectsEdges (edges : List (RelayEv × RelayEv)) (l : List RelayEv) : Bool :=
  edges.all fun e => l.indexOf e.fst < l.indexOf e.snd

/-- A valid schedule of a relay: a permutation of its events that respects
its happens-before edges. -/
def isSchedule (evs : List RelayEv) (edges : List (RelayEv × RelayEv))
    (l : List RelayEv) : Bool :=
  l.isPerm evs && respectsEdges edges l

/-- C4 failing schedule: in `main.go`'s relay the schedule that runs the
child to exit and returns while the stderr copy is still in flight is
legal — the relay can return to `handleConnection` (which then closes the
connection) before both streams are fully copied. -/
theorem relayMain_returns_before_copy :
    isSchedule relayEventsMain relayEdgesMain
        [RelayEv.spawnOut, RelayEv.spawnErr, RelayEv.waitDone, RelayEv.outDone,
         RelayEv.ret, RelayEv.errDone] = true ∧
      List.indexOf RelayEv.ret
          [RelayEv.spawnOut, RelayEv.spawnErr, RelayEv.waitDone,
           RelayEv.outDone, RelayEv.ret, RelayEv.errDone] <
        List.indexOf RelayEv.errDone
          [RelayEv.spawnOut, RelayEv.spawnErr, RelayEv.waitDone,
           RelayEv.outDone, RelayEv.ret, RelayEv.errDone] := by
  decide

/-- The config-file snapshot's relay does satisfy the claim: in every valid
schedule both copies complete strictly before the relay returns, because
each copier's `wg.Done()` happens-before `wg.Wait()`, which happens-before
the return. -/
theorem relayWg_copies_before_ret (l : List RelayEv)
    (h : isSchedule relayEventsWg relayEdgesWg l = true) :
    List.indexOf RelayEv.outDone l < List.indexOf RelayEv.ret l ∧
      List.indexOf RelayEv.errDone l < List.indexOf RelayEv.ret l := by
  have hr : respectsEdges relayEdgesWg l = true := by
    have := (Bool.and_eq_true _ _).mp h
    exact this.2
  simp only [respectsEdges, relayEdgesWg, List.all_cons, List.all_nil,
    Bool.and_eq_true, decide_eq_true_eq] at hr
  obtain ⟨-, -, h3, h4, -, -, h7, h8, -⟩ := hr
  exact ⟨Nat.lt_trans h7 h4, Nat.lt_trans h8 h4⟩

/-- Outcomes of the OS calls made by `setupSocket`: whether `os.Stat` finds
a file at the socket path, and the error values (if any) of `os.MkdirAll`,
`net.Listen` and `os.Chmod`. -/
structure FSOracle where
  statExists : Bool
  mkdirErr : Option Str
  listenErr : Option Str
  chmodErr : Option Str

/-- The filesystem/listener state `setupSocket` leaves behind: whether a
file is present at the socket path and whether a listener is open on it. -/
structure SockState where
  fileAtPath : Bool
  listenerOpen : Bool
deriving DecidableEq

/-- The possible results of `setupSocket`. -/
inductive SetupOutcome
  | ok
  | errAlready
  | errMkdir (e : Str)
  | errListen (e : Str)
  | errChmod (e : Str)
deriving DecidableEq

/-- `setupSocket` from the source: if `os.Stat` finds a file at the path,
return the "Socket file already exists" error at once; otherwise create the
directory, bind the Unix listener (which creates the socket file), and
`chmod 0600` it — on chmod failure the listener is closed and the socket
file removed before the error is returned. -/
def setupSocket (o : FSOracle) : SetupOutcome × SockState :=
  let s0 : SockState := ⟨o.statExists, false⟩
  if o.statExists then (SetupOutcome.errAlready, s0)
  else
    match o.mkdirErr with
    | some e => (SetupOutcome.errMkdir e, s0)
    | none =>
      match o.listenErr with
      | some e => (SetupOutcome.errListen e, s0)
      | none =>
        let s1 : SockState := ⟨true, true⟩
        match o.chmodErr with
        | some e => (SetupOutcome.errChmod e, ⟨false, false⟩)
        | none => (SetupOutcome.ok, s1)

/-- C6: with a file already present at the socket path, `setupSocket`
returns the already-bound error, opens no listener, and leaves the
pre-existing file in place. -/
theorem setupSocket_already_exists (o : FSOracle) (h : o.statExists = true) :
    (setupSocket o).fst = SetupOutcome.errAlready ∧
      (setupSocket o).snd.listenerOpen = false ∧
      (setupSocket o).snd.fileAtPath = true := by
  simp [setupSocket, h]

/-- Closed witness for C6 at a concrete oracle with a pre-existing file. -/
theorem setupSocket_already_exists_witness :
    (setupSocket ⟨true, none, none, none⟩).fst = SetupOutcome.errAlready ∧
      (setupSocket ⟨true, none, none, none⟩).snd.listenerOpen = false ∧
      (setupSocket ⟨true, none, none, none⟩).snd.fileAtPath = true :=
  setupSocket_already_exists ⟨true, none, none, none⟩ rfl

/-- C7: when the bind succeeds but `os.Chmod` fails, `setupSocket` returns
the chmod error with the listener closed and the socket file removed — no
listening state survives the error. -/
theorem setupSocket_chmod_failure (o : FSOracle) (e : Str)
    (hstat : o.statExists = false) (hmkdir : o.mkdirErr = none)
    (hlisten : o.listenErr = none) (hchmod : o.chmodErr = some e) :
    (setupSocket o).fst = SetupOutcome.errChmod e ∧
      (setupSocket o).snd.listenerOpen = false ∧
      (setupSocket o).snd.fileAtPath = false := by
  simp [setupSocket, hstat, hmkdir, hlisten, hchmod]

/-- Closed witness for C7 at a concrete oracle whose chmod fails. -/
theorem setupSocket_chmod_failure_witness :
    (setupSocket ⟨false, none, none, some (str "EPERM")⟩).fst =
        SetupOutcome.errChmod (str "EPERM") ∧
      (setupSocket ⟨false, none, none, some (str "EPERM")⟩).snd.listenerOpen =
        false ∧
      (setupSocket ⟨false, none, none, some (str "EPERM")⟩).snd.fileAtPath =
        false :=
  setupSocket_chmod_failure ⟨false, none, none, some (str "EPERM")⟩
    (str "EPERM") rfl rfl rfl rfl
